import Mathlib

/-!
Shallow embedding of the SUMO/TraCI ambulance-priority scripts
(`ambulance_comm.py`, `interface.py`, `generate_rsu.py`).

Simulator state visible to the scripts (vehicle positions, lane indices,
traffic-light controlled lanes and signal strings, lane lengths) is modelled
as plain data; each per-step phase of the Python loops becomes a pure
function from that data to the commands the script would send back to the
simulator, plus the script's own updated state (the `original_tl_programs`
dictionary, the dashboard log lists).
-/

set_option autoImplicit false

namespace AmbulanceSim

/-- Python's substring test `needle in hay` on character lists:
true iff `needle` occurs contiguously inside `hay`. -/
def listContains : List Char → List Char → Bool
  | needle, [] => needle.isEmpty
  | needle, c :: rest => needle.isPrefixOf (c :: rest) || listContains needle rest

/-- Python's `needle in hay` on strings. -/
def strContains (needle hay : String) : Bool :=
  listContains needle.data hay.data

/-- Python's `s.lower()`: lowercase every character. -/
def strLower (s : String) : String :=
  ⟨s.data.map Char.toLower⟩

/-- `distance(p1, p2)` from `ambulance_comm.py` line 4 and `interface.py`
line 25: `math.sqrt((p1[0] - p2[0]) ** 2 + (p1[1] - p2[1]) ** 2)`.
Coordinates are modelled as rationals, the square root exactly in `ℝ`. -/
noncomputable def distance (p1 p2 : ℚ × ℚ) : ℝ :=
  Real.sqrt (((p1.1 : ℝ) - (p2.1 : ℝ)) ^ 2 + ((p1.2 : ℝ) - (p2.2 : ℝ)) ^ 2)

/-- The squared distance, kept in `ℚ` so that comparisons are decidable. -/
def distSq (p1 p2 : ℚ × ℚ) : ℚ :=
  (p1.1 - p2.1) ^ 2 + (p1.2 - p2.2) ^ 2

/-- A snapshot of one vehicle as fetched from TraCI each step. -/
structure Vehicle where
  vid : String          -- the TraCI vehicle id
  vclass : String       -- traci.vehicle.getVehicleClass
  pos : ℚ × ℚ           -- traci.vehicle.getPosition
  edge : String         -- traci.vehicle.getRoadID
  laneIndex : Int       -- traci.vehicle.getLaneIndex
  laneId : String       -- traci.vehicle.getLaneID
  speed : ℚ             -- traci.vehicle.getSpeed
  deriving DecidableEq, Repr

/-- A snapshot of one traffic light as fetched from TraCI each step. -/
structure TrafficLight where
  tlid : String                 -- the TraCI traffic-light id
  controlledLanes : List String -- traci.trafficlight.getControlledLanes
  ryg : String                  -- traci.trafficlight.getRedYellowGreenState
  program : String              -- traci.trafficlight.getProgram
  deriving DecidableEq, Repr

/-- Detection predicate from `ambulance_comm.py` line 20 / `interface.py`
line 37: `"ambulance" in v.lower() or traci.vehicle.getVehicleClass(v) == "emergency"`. -/
def isAmbulance (v : Vehicle) : Bool :=
  strContains "ambulance" (strLower v.vid) || v.vclass == "emergency"

/-- `ambulances = [v for v in vehicles if ...]`. -/
def ambulances (vehicles : List Vehicle) : List Vehicle :=
  vehicles.filter isAmbulance

/-- Commands the scripts send back through TraCI. -/
inductive Cmd where
  | setColor (vid : String) (rgba : Nat × Nat × Nat × Nat)
  | setSpeedMode (vid : String) (mode : Nat)
  | setRYGState (tlid : String) (state : String)
  | setProgram (tlid : String) (prog : String)
  | changeLane (vid : String) (lane : Int) (dur : ℚ)
  deriving DecidableEq, Repr

/-- The vehicle a command is addressed to, if it is a vehicle command. -/
def Cmd.vehTarget : Cmd → Option String
  | .setColor vid _ => some vid
  | .setSpeedMode vid _ => some vid
  | .changeLane vid _ _ => some vid
  | .setRYGState _ _ => none
  | .setProgram _ _ => none

/-- Phase (a) of the per-step loop: every detected ambulance is coloured red
and its speed mode set to 0 (`ambulance_comm.py` lines 28-29,
`interface.py` lines 50-51). -/
def markCmds (vehicles : List Vehicle) : List Cmd :=
  (ambulances vehicles).flatMap fun a =>
    [Cmd.setColor a.vid (255, 0, 0, 255), Cmd.setSpeedMode a.vid 0]

/-- `any(amb_edge in lane for lane in controlled_lanes)`
(`ambulance_comm.py` line 35, `interface.py` line 58). -/
def inZone (ambEdge : String) (tl : TrafficLight) : Bool :=
  tl.controlledLanes.any fun lane => strContains ambEdge lane

/-- The signal-state string built at `ambulance_comm.py` lines 42-47
(`interface.py` lines 63-68): starting from `''`, append `'G'` for every
controlled lane containing the ambulance's edge id, `'r'` otherwise. -/
def buildState (ambEdge : String) (lanes : List String) : String :=
  lanes.foldl (fun s lane => s.push (if strContains ambEdge lane then 'G' else 'r')) ""

/-- The saved-program dictionary `original_tl_programs`, as an association
list with unique keys (keys are traffic-light ids, values program ids). -/
abbrev ProgMap := List (String × String)

/-- `if tl not in original_tl_programs: original_tl_programs[tl] = getProgram(tl)`
(`ambulance_comm.py` lines 36-37, `interface.py` lines 60-61). -/
def saveOriginal (m : ProgMap) (tl : TrafficLight) : ProgMap :=
  if (m.lookup tl.tlid).isSome then m else (tl.tlid, tl.program) :: m

/-- `del original_tl_programs[tl]` (`ambulance_comm.py` line 59). -/
def eraseKey (k : String) (m : ProgMap) : ProgMap :=
  m.filter fun p => p.1 != k

/-- Result of processing one traffic light for one ambulance. -/
structure TLResult where
  progs : ProgMap
  light : TrafficLight
  cmds : List Cmd
  warnings : List String
  deriving Repr

/-- One iteration of the traffic-light loop (`ambulance_comm.py` lines 32-59):
if the ambulance's edge occurs in some controlled lane, save the original
program on first control, build the green/red state string and apply it only
when its length matches the current state's length (else warn); otherwise
restore and delete a saved program if one exists. -/
def processTL (ambEdge : String) (m : ProgMap) (tl : TrafficLight) : TLResult :=
  if inZone ambEdge tl then
    let m' := saveOriginal m tl
    let st := buildState ambEdge tl.controlledLanes
    if st.length = tl.ryg.length then
      ⟨m', { tl with ryg := st }, [Cmd.setRYGState tl.tlid st], []⟩
    else
      ⟨m', tl, [], [tl.tlid]⟩
  else
    match m.lookup tl.tlid with
    | some prog => ⟨eraseKey tl.tlid m, { tl with program := prog },
        [Cmd.setProgram tl.tlid prog], []⟩
    | none => ⟨m, tl, [], []⟩

/-- `PROACTIVE_DISTANCE = 100` (`ambulance_comm.py` line 10). -/
def PROACTIVE_DISTANCE : ℚ := 100

/-- The V2V alert condition tested at `ambulance_comm.py` lines 63-72
(`interface.py` lines 75-85): a vehicle other than the ambulance, not of
class `"emergency"`, on the same road and lane index, at Euclidean distance
strictly between 0 and 100, strictly ahead (greater x-coordinate). -/
def alertCond (amb veh : Vehicle) : Prop :=
  veh.vid ≠ amb.vid ∧ veh.vclass ≠ "emergency" ∧ veh.edge = amb.edge
  ∧ veh.laneIndex = amb.laneIndex
  ∧ 0 < distance amb.pos veh.pos ∧ distance amb.pos veh.pos < 100
  ∧ amb.pos.1 < veh.pos.1

instance alertCondDecidable (amb veh : Vehicle) : Decidable (alertCond amb veh) :=
  decidable_of_iff
    (veh.vid ≠ amb.vid ∧ veh.vclass ≠ "emergency" ∧ veh.edge = amb.edge
      ∧ veh.laneIndex = amb.laneIndex
      ∧ 0 < distSq amb.pos veh.pos ∧ distSq amb.pos veh.pos < 10000
      ∧ amb.pos.1 < veh.pos.1)
    (by
      have hd : distance amb.pos veh.pos
          = Real.sqrt ((distSq amb.pos veh.pos : ℚ) : ℝ) := by
        unfold distance distSq
        push_cast
        ring_nf
      have h1 : 0 < distance amb.pos veh.pos ↔ 0 < distSq amb.pos veh.pos := by
        rw [hd, Real.sqrt_pos, Rat.cast_pos]
      have h2 : distance amb.pos veh.pos < 100 ↔ distSq amb.pos veh.pos < 10000 := by
        rw [hd, Real.sqrt_lt' (by norm_num : (0:ℝ) < 100)]
        have h100 : ((10000 : ℚ) : ℝ) = (100 : ℝ) ^ 2 := by norm_num
        rw [← h100, Rat.cast_lt]
      unfold alertCond
      rw [h1, h2])

/-- `ambulance_comm.py` lines 63-75: the scan `break`s at the first vehicle
meeting the alert condition, so only that vehicle gets the console alert. -/
def scanFirstAlert (amb : Vehicle) : List Vehicle → Option Vehicle
  | [] => none
  | v :: rest => if alertCond amb v then some v else scanFirstAlert amb rest

/-- `congestion_detected` after the main script's scan. -/
def congestionDetected (amb : Vehicle) (vehicles : List Vehicle) : Bool :=
  (scanFirstAlert amb vehicles).isSome

/-- The vehicles the main script actually alerts in one scan (at most one). -/
def mainFlagged (amb : Vehicle) (vehicles : List Vehicle) : List Vehicle :=
  (scanFirstAlert amb vehicles).toList

/-- `interface.py` lines 74-88: every vehicle meeting the alert condition is
counted (the loop has no break). -/
def dashFlagged (amb : Vehicle) (vehicles : List Vehicle) : List Vehicle :=
  vehicles.filter fun v => decide (alertCond amb v)

/-- Outcome of one `traci.vehicle.changeLane` call as observed by the
script: the call returns and `getLaneID` reads back `afterLane`, or the
call raises (the exception is caught at `ambulance_comm.py` line 98). -/
inductive TryOutcome where
  | ok (afterLane : String)
  | err
  deriving DecidableEq, Repr

/-- Candidate lanes (`ambulance_comm.py` lines 81-86): `amb_lane_index + 1`
if below the edge's lane count, then `amb_lane_index - 1` if at least 0. -/
def laneOptions (laneIndex numLanes : Int) : List Int :=
  (if laneIndex + 1 < numLanes then [laneIndex + 1] else [])
    ++ (if 0 ≤ laneIndex - 1 then [laneIndex - 1] else [])

/-- One attempt succeeds when the call returned and the lane id read back
differs from the one read before (`ambulance_comm.py` line 94). -/
def trySucceeds (laneId : String) : TryOutcome → Bool
  | .ok afterLane => afterLane != laneId
  | .err => false

/-- `ambulance_comm.py` lines 88-100: try the candidates in order, treating
a caught exception as failure, and stop at the first successful change.
Returns the `changed` flag and the candidates actually attempted. -/
def attemptLanes (laneId : String) (tryOut : Int → TryOutcome) :
    List Int → Bool × List Int
  | [] => (false, [])
  | n :: rest =>
    if trySucceeds laneId (tryOut n) then (true, [n])
    else
      let r := attemptLanes laneId tryOut rest
      (r.1, n :: r.2)

/-- `ambulance_comm.py` line 78: the attempt block runs only when the scan
detected a vehicle. -/
def laneChangePhase (amb : Vehicle) (vehicles : List Vehicle) (numLanes : Int)
    (tryOut : Int → TryOutcome) : Option (Bool × List Int) :=
  if congestionDetected amb vehicles then
    some (attemptLanes amb.laneId tryOut (laneOptions amb.laneIndex numLanes))
  else none

/-- Result of the whole per-ambulance body of the main loop. -/
structure TLPhaseResult where
  progs : ProgMap
  lights : List TrafficLight
  cmds : List Cmd
  warnings : List String
  deriving Repr

/-- The `for tl in junctions` loop (`ambulance_comm.py` lines 32-59),
threading the saved-program map left to right. -/
def tlPhase (ambEdge : String) (m : ProgMap) : List TrafficLight → TLPhaseResult
  | [] => ⟨m, [], [], []⟩
  | tl :: rest =>
    let r := processTL ambEdge m tl
    let rr := tlPhase ambEdge r.progs rest
    ⟨rr.progs, r.light :: rr.lights, r.cmds ++ rr.cmds, r.warnings ++ rr.warnings⟩

/-- Everything the main script does for one detected ambulance in one step:
mark it (colour + speed mode), run the traffic-light loop, run the alert
scan (which sends nothing), and run the lane-change attempt when the scan
detected a vehicle. -/
def perAmbulanceStep (amb : Vehicle) (vehicles : List Vehicle)
    (lights : List TrafficLight) (m : ProgMap) (numLanes : Int)
    (tryOut : Int → TryOutcome) : TLPhaseResult :=
  let mark : List Cmd := [Cmd.setColor amb.vid (255, 0, 0, 255), Cmd.setSpeedMode amb.vid 0]
  let tlr := tlPhase amb.edge m lights
  let lcCmds : List Cmd :=
    match laneChangePhase amb vehicles numLanes tryOut with
    | some r => r.2.map fun n => Cmd.changeLane amb.vid n 10
    | none => []
  ⟨tlr.progs, tlr.lights, mark ++ tlr.cmds ++ lcCmds, tlr.warnings⟩

/-- Decimal digits of `n`, most significant first: the formatting the
f-string `f"rsu_..."` of `generate_rsu.py` line 45 applies to the
enumeration index. -/
def natDecimal (n : Nat) : List Char :=
  if h : n < 10 then [Char.ofNat (48 + n)]
  else natDecimal (n / 10) ++ [Char.ofNat (48 + n % 10)]
termination_by n
decreasing_by exact Nat.div_lt_self (by omega) (by omega)

/-- Reads a digit list back as a number; left inverse of `natDecimal`. -/
def digitsVal (l : List Char) : Nat :=
  l.foldl (fun acc c => 10 * acc + (c.toNat - 48)) 0

/-- `rsu_id = f"rsu_..."` with the decimal index (`generate_rsu.py` line 45). -/
def rsuId (i : Nat) : String :=
  "rsu_" ++ ⟨natDecimal i⟩

/-- `pos = max(1, min(lane_length / 2, lane_length - 1))`
(`generate_rsu.py` line 37); lane lengths are modelled as rationals. -/
def rsuPos (laneLength : ℚ) : ℚ :=
  max 1 (min (laneLength / 2) (laneLength - 1))

/-- One `inductionLoop` element written to `osm.add.xml`
(`generate_rsu.py` lines 46-51). -/
structure Rsu where
  rid : String
  lane : String
  pos : ℚ
  deriving Repr

/-- `rsu_list` (`generate_rsu.py` lines 32-38): for each emergency-route
edge whose first lane `edge + "_0"` exists, the lane id and the placement
position. -/
def rsuLanes (edges : List String) (laneExists : String → Bool)
    (laneLength : String → ℚ) : List (String × ℚ) :=
  edges.filterMap fun e =>
    if laneExists (e ++ "_0") then some (e ++ "_0", rsuPos (laneLength (e ++ "_0")))
    else none

/-- The `inductionLoop` elements written out (`generate_rsu.py` lines
43-51): one per entry of `rsu_list`, with id `rsu_<i>` for index `i`. -/
def rsuElements (edges : List String) (laneExists : String → Bool)
    (laneLength : String → ℚ) : List Rsu :=
  (rsuLanes edges laneExists laneLength).enum.map fun p => ⟨rsuId p.1, p.2.1, p.2.2⟩

/-- `tree.write("osm.add.xml")` (`generate_rsu.py` line 54). -/
def rsuOutputFile : String := "osm.add.xml"

/-- The six global log lists of `interface.py` lines 15-20. -/
structure DashLogs where
  time_log : List Nat
  ambulance_speed_log : List ℚ
  vehicle_alert_count : List Nat
  traffic_light_control_log : List Nat
  stopped_vehicle_counts : List Nat
  simulation_times : List Nat
  deriving Repr

/-- All six lists start empty. -/
def emptyLogs : DashLogs := ⟨[], [], [], [], [], []⟩

/-- `stopped = speed < 0.1` (`interface.py` line 102). -/
def isStopped (v : Vehicle) : Bool :=
  v.speed < 1/10

/-- The vehicles counted at `interface.py` line 111: stopped and not
classified as an ambulance. -/
def stoppedVehicles (vehicles : List Vehicle) : List Vehicle :=
  vehicles.filter fun v => isStopped v && !(isAmbulance v)

/-- `stopped_count` (`interface.py` line 111). -/
def stoppedCount (vehicles : List Vehicle) : Nat :=
  (stoppedVehicles vehicles).length

/-- `controlled_this_ambulance` totalled over all lights (`interface.py`
lines 55-71). -/
def tlControlledCount (ambEdge : String) (lights : List TrafficLight) : Nat :=
  (lights.filter fun tl => inZone ambEdge tl).length

/-- One ambulance's lock-held append block (`interface.py` lines 86-94):
the two running totals are bumped, then one value is appended to each of
the four per-ambulance logs inside the same `with log_lock`. -/
def dashAmbAppend (stepNo : Nat) (vehicles : List Vehicle)
    (lights : List TrafficLight) (acc : Nat × Nat × DashLogs) (amb : Vehicle) :
    Nat × Nat × DashLogs :=
  let alerted := acc.1 + (dashFlagged amb vehicles).length
  let tlc := acc.2.1 + tlControlledCount amb.edge lights
  let lg := acc.2.2
  (alerted, tlc,
    { lg with
      time_log := lg.time_log ++ [stepNo]
      ambulance_speed_log := lg.ambulance_speed_log ++ [amb.speed]
      vehicle_alert_count := lg.vehicle_alert_count ++ [alerted]
      traffic_light_control_log := lg.traffic_light_control_log ++ [tlc] })

/-- One outer iteration of `run_simulation` (`interface.py` lines 34-115)
restricted to its effect on the log lists: the per-ambulance lock blocks,
then the lock block appending the stopped count and the step number. -/
def dashStep (stepNo : Nat) (vehicles : List Vehicle)
    (lights : List TrafficLight) (lg : DashLogs) : DashLogs :=
  let folded := (ambulances vehicles).foldl (dashAmbAppend stepNo vehicles lights) (0, 0, lg)
  ⟨folded.2.2.time_log, folded.2.2.ambulance_speed_log,
    folded.2.2.vehicle_alert_count, folded.2.2.traffic_light_control_log,
    folded.2.2.stopped_vehicle_counts ++ [stoppedCount vehicles],
    folded.2.2.simulation_times ++ [stepNo]⟩

/-- The worker run over a whole trace of simulator snapshots
(step number, vehicles, lights). -/
def dashRun : List (Nat × List Vehicle × List TrafficLight) → DashLogs → DashLogs
  | [], lg => lg
  | w :: ws, lg => dashRun ws (dashStep w.1 w.2.1 w.2.2 lg)

/-- The C10 invariant: the four per-ambulance logs have equal lengths, and
so do the two per-step logs. -/
def dashInv (lg : DashLogs) : Prop :=
  lg.time_log.length = lg.ambulance_speed_log.length
  ∧ lg.time_log.length = lg.vehicle_alert_count.length
  ∧ lg.time_log.length = lg.traffic_light_control_log.length
  ∧ lg.stopped_vehicle_counts.length = lg.simulation_times.length

/-- Lane-existence oracle used by the C8 witness: only `E1_0` exists. -/
def wLaneExists : String → Bool := fun s => s == "E1_0"

/-- Lane-length oracle used by the C8 witness: every lane is 10 m long. -/
def wLaneLength : String → ℚ := fun _ => 10

/-- Concrete traffic light used by the witnesses: two controlled lanes on
edges `E1` and `E2`, signal string of matching length 2. -/
def wTL : TrafficLight := ⟨"J1", ["E1_0", "E2_0"], "rr", "0"⟩

/-- Concrete traffic light whose signal string length 3 does not match its
2 controlled lanes. -/
def wTLbad : TrafficLight := ⟨"J2", ["E1_0", "E2_0"], "rrr", "0"⟩

/-- Concrete ambulance for witnesses: on edge `E1`, lane 0, at the origin. -/
def exAmb : Vehicle := ⟨"ambulance_1", "emergency", (0, 0), "E1", 0, "E1_0", 10⟩

/-- Concrete passenger car 10 m ahead of `exAmb` on the same lane. -/
def exV1 : Vehicle := ⟨"car_1", "passenger", (10, 0), "E1", 0, "E1_0", 5⟩

/-- Concrete passenger car 20 m ahead of `exAmb` on the same lane. -/
def exV2 : Vehicle := ⟨"car_2", "passenger", (20, 0), "E1", 0, "E1_0", 5⟩

/-- The stepping loop of `ambulance_comm.py` lines 17-18 (`interface.py`
lines 34-35): `while traci.simulation.getMinExpectedNumber() > 0:
traci.simulationStep()`. `report k` is the value `getMinExpectedNumber`
returns at the k-th check; the loop advances the simulation exactly once
per iteration, so the returned value is both the number of completed
iterations and the number of `simulationStep` calls. `none` means the fuel
ran out before the loop exited. -/
def runLoop (report : Nat → Int) : Nat → Nat → Option Nat
  | 0, _ => none
  | fuel + 1, k => if report k > 0 then runLoop report fuel (k + 1) else some k

theorem distance_eq_sqrt_distSq (p1 p2 : ℚ × ℚ) :
    distance p1 p2 = Real.sqrt ((distSq p1 p2 : ℚ) : ℝ) := by
  unfold distance distSq
  push_cast
  ring_nf

theorem distSq_nonneg (p1 p2 : ℚ × ℚ) : 0 ≤ distSq p1 p2 := by
  unfold distSq
  positivity

theorem buildState_data (ambEdge : String) (lanes : List String) :
    (buildState ambEdge lanes).data
      = lanes.map (fun lane => if strContains ambEdge lane then 'G' else 'r') := by
  suffices h : ∀ s : String,
      (lanes.foldl (fun s lane => s.push (if strContains ambEdge lane then 'G' else 'r')) s).data
        = s.data ++ lanes.map (fun lane => if strContains ambEdge lane then 'G' else 'r') by
    simpa [buildState] using h ""
  induction lanes with
  | nil => intro s; simp
  | cons lane rest ih =>
    intro s
    rw [List.foldl_cons, ih]
    simp

theorem buildState_length (ambEdge : String) (lanes : List String) :
    (buildState ambEdge lanes).length = lanes.length := by
  simp [String.length, buildState_data]

theorem lookup_eraseKey_self (k : String) (m : ProgMap) :
    (eraseKey k m).lookup k = none := by
  induction m with
  | nil => rfl
  | cons p rest ih =>
    simp only [eraseKey, List.filter_cons] at ih ⊢
    by_cases h : p.1 = k
    · have hb : (p.1 != k) = false := by simp [h]
      simp [hb, ih]
    · have hb : (p.1 != k) = true := by simp [h]
      have hk : (k == p.1) = false := by simp [Ne.symm h]
      simp [hb, List.lookup, hk, ih]

theorem alertCond_iff_distSq (amb veh : Vehicle) :
    alertCond amb veh ↔
      (veh.vid ≠ amb.vid ∧ veh.vclass ≠ "emergency" ∧ veh.edge = amb.edge
      ∧ veh.laneIndex = amb.laneIndex
      ∧ 0 < distSq amb.pos veh.pos ∧ distSq amb.pos veh.pos < 10000
      ∧ amb.pos.1 < veh.pos.1) := by
  have h1 : 0 < distance amb.pos veh.pos ↔ 0 < distSq amb.pos veh.pos := by
    rw [distance_eq_sqrt_distSq, Real.sqrt_pos, Rat.cast_pos]
  have h2 : distance amb.pos veh.pos < 100 ↔ distSq amb.pos veh.pos < 10000 := by
    rw [distance_eq_sqrt_distSq, Real.sqrt_lt' (by norm_num : (0:ℝ) < 100)]
    have h100 : ((10000 : ℚ) : ℝ) = (100 : ℝ) ^ 2 := by norm_num
    rw [← h100, Rat.cast_lt]
  unfold alertCond
  rw [h1, h2]

theorem scanFirstAlert_eq_find (amb : Vehicle) (vehicles : List Vehicle) :
    scanFirstAlert amb vehicles
      = vehicles.find? fun v => decide (alertCond amb v) := by
  induction vehicles with
  | nil => rfl
  | cons v rest ih =>
    by_cases h : alertCond amb v
    · simp [scanFirstAlert, h, List.find?]
    · simp [scanFirstAlert, h, List.find?, ih]

theorem attemptLanes_eq_take_findIdx (laneId : String) (tryOut : Int → TryOutcome)
    (opts : List Int) :
    attemptLanes laneId tryOut opts
      = (opts.any (fun n => trySucceeds laneId (tryOut n)),
         opts.take ((opts.findIdx fun n => trySucceeds laneId (tryOut n)) + 1)) := by
  induction opts with
  | nil => simp [attemptLanes]
  | cons n rest ih =>
    cases h : trySucceeds laneId (tryOut n)
    · simp [attemptLanes, h, List.findIdx_cons, ih]
    · simp [attemptLanes, h, List.findIdx_cons]

theorem processTL_cmds_vehTarget (ambEdge : String) (m : ProgMap) (tl : TrafficLight) :
    ∀ c ∈ (processTL ambEdge m tl).cmds, c.vehTarget = none := by
  by_cases hz : inZone ambEdge tl
  · by_cases hlen : (buildState ambEdge tl.controlledLanes).length = tl.ryg.length <;>
      simp [processTL, hz, hlen, Cmd.vehTarget]
  · have hzf : inZone ambEdge tl = false := by simpa using hz
    cases ho : m.lookup tl.tlid <;> simp [processTL, hzf, ho, Cmd.vehTarget]

theorem tlPhase_cmds_vehTarget (ambEdge : String) (lights : List TrafficLight) :
    ∀ m : ProgMap, ∀ c ∈ (tlPhase ambEdge m lights).cmds, c.vehTarget = none := by
  induction lights with
  | nil => intro m c hc; simp [tlPhase] at hc
  | cons tl rest ih =>
    intro m c hc
    simp only [tlPhase, List.mem_append] at hc
    rcases hc with hc | hc
    · exact processTL_cmds_vehTarget ambEdge m tl c hc
    · exact ih _ c hc

theorem digitChar_toNat (d : Nat) (hd : d < 10) :
    (Char.ofNat (48 + d)).toNat = 48 + d := by
  interval_cases d <;> decide

theorem digitsVal_append_digit (l : List Char) (c : Char) :
    digitsVal (l ++ [c]) = 10 * digitsVal l + (c.toNat - 48) := by
  simp [digitsVal, List.foldl_append]

theorem digitsVal_natDecimal (n : Nat) : digitsVal (natDecimal n) = n := by
  induction n using Nat.strong_induction_on with
  | _ n ih =>
    by_cases h : n < 10
    · rw [natDecimal, dif_pos h]
      simp [digitsVal, digitChar_toNat n h]
    · rw [natDecimal, dif_neg h, digitsVal_append_digit,
        ih (n / 10) (Nat.div_lt_self (by omega) (by omega)),
        digitChar_toNat (n % 10) (Nat.mod_lt n (by omega))]
      omega

theorem natDecimal_injective : Function.Injective natDecimal := by
  intro a b h
  have := congrArg digitsVal h
  rwa [digitsVal_natDecimal, digitsVal_natDecimal] at this

theorem rsuId_injective : Function.Injective rsuId := by
  intro a b h
  have hd : "rsu_".data ++ natDecimal a = "rsu_".data ++ natDecimal b := by
    have := congrArg String.data h
    simpa [rsuId, String.data_append] using this
  exact natDecimal_injective (List.append_cancel_left hd)

theorem rsuLanes_map_fst (edges : List String) (laneExists : String → Bool)
    (laneLength : String → ℚ) :
    (rsuLanes edges laneExists laneLength).map Prod.fst
      = (edges.filter fun e => laneExists (e ++ "_0")).map fun e => e ++ "_0" := by
  induction edges with
  | nil => rfl
  | cons e rest ih =>
    by_cases h : laneExists (e ++ "_0") <;>
      simp [rsuLanes, List.filterMap_cons, List.filter_cons, h] <;>
      simpa [rsuLanes] using ih

theorem dashAmbAppend_foldl_lengths (stepNo : Nat) (vehicles : List Vehicle)
    (lights : List TrafficLight) (ambs : List Vehicle) :
    ∀ acc : Nat × Nat × DashLogs,
      ((ambs.foldl (dashAmbAppend stepNo vehicles lights) acc).2.2.time_log.length
          = acc.2.2.time_log.length + ambs.length)
      ∧ ((ambs.foldl (dashAmbAppend stepNo vehicles lights) acc).2.2.ambulance_speed_log.length
          = acc.2.2.ambulance_speed_log.length + ambs.length)
      ∧ ((ambs.foldl (dashAmbAppend stepNo vehicles lights) acc).2.2.vehicle_alert_count.length
          = acc.2.2.vehicle_alert_count.length + ambs.length)
      ∧ ((ambs.foldl (dashAmbAppend stepNo vehicles lights) acc).2.2.traffic_light_control_log.length
          = acc.2.2.traffic_light_control_log.length + ambs.length)
      ∧ ((ambs.foldl (dashAmbAppend stepNo vehicles lights) acc).2.2.stopped_vehicle_counts
          = acc.2.2.stopped_vehicle_counts)
      ∧ ((ambs.foldl (dashAmbAppend stepNo vehicles lights) acc).2.2.simulation_times
          = acc.2.2.simulation_times) := by
  induction ambs with
  | nil => intro acc; simp
  | cons a as ih =>
    intro acc
    simp only [List.foldl_cons, List.length_cons]
    have h := ih (dashAmbAppend stepNo vehicles lights acc a)
    have e1 : (dashAmbAppend stepNo vehicles lights acc a).2.2.time_log
        = acc.2.2.time_log ++ [stepNo] := rfl
    have e2 : (dashAmbAppend stepNo vehicles lights acc a).2.2.ambulance_speed_log
        = acc.2.2.ambulance_speed_log ++ [a.speed] := rfl
    have e3 : (dashAmbAppend stepNo vehicles lights acc a).2.2.vehicle_alert_count
        = acc.2.2.vehicle_alert_count
            ++ [acc.1 + (dashFlagged a vehicles).length] := rfl
    have e4 : (dashAmbAppend stepNo vehicles lights acc a).2.2.traffic_light_control_log
        = acc.2.2.traffic_light_control_log
            ++ [acc.2.1 + tlControlledCount a.edge lights] := rfl
    have e5 : (dashAmbAppend stepNo vehicles lights acc a).2.2.stopped_vehicle_counts
        = acc.2.2.stopped_vehicle_counts := rfl
    have e6 : (dashAmbAppend stepNo vehicles lights acc a).2.2.simulation_times
        = acc.2.2.simulation_times := rfl
    refine ⟨?_, ?_, ?_, ?_, ?_, ?_⟩
    · rw [h.1, e1]; simp; omega
    · rw [h.2.1, e2]; simp; omega
    · rw [h.2.2.1, e3]; simp; omega
    · rw [h.2.2.2.1, e4]; simp; omega
    · rw [h.2.2.2.2.1, e5]
    · rw [h.2.2.2.2.2, e6]

theorem dashStep_inv (stepNo : Nat) (vehicles : List Vehicle)
    (lights : List TrafficLight) (lg : DashLogs) (h : dashInv lg) :
    dashInv (dashStep stepNo vehicles lights lg) := by
  obtain ⟨h1, h2, h3, h4⟩ := h
  obtain ⟨f1, f2, f3, f4, f5, f6⟩ := dashAmbAppend_foldl_lengths stepNo vehicles lights
    (ambulances vehicles) (0, 0, lg)
  have e0 : ((0, 0, lg) : Nat × Nat × DashLogs).2.2 = lg := rfl
  rw [e0] at f1 f2 f3 f4 f5 f6
  unfold dashStep dashInv
  refine ⟨?_, ?_, ?_, ?_⟩
  · simp only [f1, f2]; omega
  · simp only [f1, f3]; omega
  · simp only [f1, f4]; omega
  · simp only [List.length_append, List.length_cons, List.length_nil, f5, f6]; omega

/-- C10: each per-ambulance lock block appends one entry to each of the
four per-ambulance logs together and each per-step lock block appends one
entry to each of the two per-step logs, so in every state reachable with
the lock released the four lists have equal lengths and so do the other
two; and the stopped-vehicle count never counts a vehicle classified as an
ambulance. -/
theorem dash_log_invariant (worlds : List (Nat × List Vehicle × List TrafficLight)) :
    (∀ lg, dashInv lg → dashInv (dashRun worlds lg))
    ∧ dashInv (dashRun worlds emptyLogs)
    ∧ (∀ vehicles : List Vehicle, ∀ v ∈ vehicles, isAmbulance v = true →
        v ∉ stoppedVehicles vehicles) := by
  have hrun : ∀ (ws : List (Nat × List Vehicle × List TrafficLight)) (lg : DashLogs),
      dashInv lg → dashInv (dashRun ws lg) := by
    intro ws
    induction ws with
    | nil => intro lg h; exact h
    | cons w rest ih =>
      intro lg h
      exact ih _ (dashStep_inv w.1 w.2.1 w.2.2 lg h)
  refine ⟨hrun worlds, hrun worlds emptyLogs ⟨rfl, rfl, rfl, rfl⟩, ?_⟩
  intro vehicles v _ hamb hmem
  simp only [stoppedVehicles, List.mem_filter] at hmem
  rcases hmem with ⟨_, hcond⟩
  simp [hamb] at hcond

/-- Witness for C10: the invariant holds for the empty logs and is carried
through a concrete one-step run. -/
theorem dash_log_invariant_witness :
    dashInv emptyLogs
    ∧ dashInv (dashRun [(0, [exAmb, exV1], ([] : List TrafficLight))] emptyLogs) :=
  ⟨⟨rfl, rfl, rfl, rfl⟩,
    (dash_log_invariant [(0, [exAmb, exV1], ([] : List TrafficLight))]).1 emptyLogs
      ⟨rfl, rfl, rfl, rfl⟩⟩

theorem snd_mem_of_mem_enum {α : Type} {l : List α} {p : Nat × α}
    (hp : p ∈ l.enum) : p.2 ∈ l := by
  rw [List.mem_enum_iff_getElem?] at hp
  exact List.getElem?_mem hp

theorem append_zero_injective : Function.Injective (fun e : String => e ++ "_0") := by
  intro a b h
  have hd := congrArg String.data h
  simp only [String.data_append] at hd
  exact String.ext (List.append_cancel_right hd)

/-- C8: the RSU generator writes to the hardcoded `osm.add.xml` exactly one
`inductionLoop` per distinct emergency-route edge whose first lane
`edge + "_0"` exists, with pairwise distinct ids `rsu_<i>`, each placed on
that first lane at position `max(1, min(length/2, length-1))`, which lies
in `[1, length-1]` for every lane of length at least 2. -/
theorem rsu_generation (edges : List String) (laneExists : String → Bool)
    (laneLength : String → ℚ) (hnd : edges.Nodup) :
    ((rsuElements edges laneExists laneLength).map Rsu.lane
        = (edges.filter fun e => laneExists (e ++ "_0")).map fun e => e ++ "_0")
    ∧ ((rsuElements edges laneExists laneLength).map Rsu.lane).Nodup
    ∧ ((rsuElements edges laneExists laneLength).map Rsu.rid
        = (List.range (rsuLanes edges laneExists laneLength).length).map rsuId)
    ∧ ((rsuElements edges laneExists laneLength).map Rsu.rid).Nodup
    ∧ (∀ r ∈ rsuElements edges laneExists laneLength,
        ∃ e ∈ edges, laneExists (e ++ "_0") = true ∧ r.lane = e ++ "_0"
          ∧ r.pos = rsuPos (laneLength (e ++ "_0")))
    ∧ (∀ L : ℚ, 2 ≤ L → 1 ≤ rsuPos L ∧ rsuPos L ≤ L - 1)
    ∧ rsuOutputFile = "osm.add.xml" := by
  have hauxlane : ∀ (n : Nat) (l : List (String × ℚ)),
      ((List.enumFrom n l).map fun p => (⟨rsuId p.1, p.2.1, p.2.2⟩ : Rsu)).map Rsu.lane
        = l.map Prod.fst := by
    intro n l
    induction l generalizing n with
    | nil => rfl
    | cons x xs ih => simp [List.enumFrom_cons, ih]
  have hauxrid : ∀ (n : Nat) (l : List (String × ℚ)),
      ((List.enumFrom n l).map fun p => (⟨rsuId p.1, p.2.1, p.2.2⟩ : Rsu)).map Rsu.rid
        = (List.range' n l.length).map rsuId := by
    intro n l
    induction l generalizing n with
    | nil => rfl
    | cons x xs ih => simp [List.enumFrom_cons, List.range'_succ, ih]
  have hlane : (rsuElements edges laneExists laneLength).map Rsu.lane
      = (edges.filter fun e => laneExists (e ++ "_0")).map fun e => e ++ "_0" := by
    rw [rsuElements, List.enum, hauxlane 0, rsuLanes_map_fst]
  have hrid : (rsuElements edges laneExists laneLength).map Rsu.rid
      = (List.range (rsuLanes edges laneExists laneLength).length).map rsuId := by
    rw [rsuElements, List.enum, hauxrid 0, ← List.range_eq_range']
  refine ⟨hlane, ?_, hrid, ?_, ?_, ?_, rfl⟩
  · rw [hlane]
    exact (hnd.filter _).map append_zero_injective
  · rw [hrid]
    exact (List.nodup_range _).map rsuId_injective
  · intro r hr
    simp only [rsuElements, List.mem_map] at hr
    obtain ⟨p, hp, hr⟩ := hr
    have hmem : p.2 ∈ rsuLanes edges laneExists laneLength := snd_mem_of_mem_enum hp
    simp only [rsuLanes, List.mem_filterMap] at hmem
    obtain ⟨e, he, hfe⟩ := hmem
    by_cases hex : laneExists (e ++ "_0")
    · rw [if_pos hex] at hfe
      injection hfe with hfe
      refine ⟨e, he, hex, ?_, ?_⟩ <;> rw [← hr, ← hfe]
    · rw [if_neg hex] at hfe
      cases hfe
  · intro L hL
    refine ⟨le_max_left 1 _, max_le (by linarith) ?_⟩
    exact le_trans (min_le_right _ _) (le_refl _)

/-- Witness for C8 on the concrete edge list `["E1", "E2"]`: one RSU (on
`E1_0` only) with distinct ids. -/
theorem rsu_generation_witness :
    (["E1", "E2"] : List String).Nodup
    ∧ ((rsuElements ["E1", "E2"] wLaneExists wLaneLength).map Rsu.lane
        = ((["E1", "E2"] : List String).filter fun e => wLaneExists (e ++ "_0")).map
            fun e => e ++ "_0")
    ∧ ((rsuElements ["E1", "E2"] wLaneExists wLaneLength).map Rsu.rid).Nodup
    ∧ rsuOutputFile = "osm.add.xml" := by
  have h := rsu_generation ["E1", "E2"] wLaneExists wLaneLength (by decide)
  exact ⟨by decide, h.1, h.2.2.2.1, h.2.2.2.2.2.2⟩

/-- C9: `distance` computes the Euclidean distance between two 2-D points:
it is symmetric, non-negative, and zero on equal points. -/
theorem distance_metric_properties (p q : ℚ × ℚ) :
    distance p q = distance q p ∧ 0 ≤ distance p q ∧ distance p p = 0 := by
  refine ⟨?_, Real.sqrt_nonneg _, ?_⟩
  · unfold distance
    ring_nf
  · unfold distance
    simp [Real.sqrt_zero]

/-- C1: for a traffic light one of whose controlled lanes contains the
ambulance's current road id as a substring, the loop builds a state string
with exactly one character per controlled lane — `'G'` at positions whose
lane contains the road id, `'r'` elsewhere — and, when applied, that string
overwrites the light's red-yellow-green state. -/
theorem tl_override_state_string (ambEdge : String) (m : ProgMap) (tl : TrafficLight)
    (hz : inZone ambEdge tl = true) :
    (buildState ambEdge tl.controlledLanes).length = tl.controlledLanes.length
    ∧ (buildState ambEdge tl.controlledLanes).data
        = tl.controlledLanes.map (fun lane => if strContains ambEdge lane then 'G' else 'r')
    ∧ ((buildState ambEdge tl.controlledLanes).length = tl.ryg.length →
        (processTL ambEdge m tl).light.ryg = buildState ambEdge tl.controlledLanes
        ∧ Cmd.setRYGState tl.tlid (buildState ambEdge tl.controlledLanes)
            ∈ (processTL ambEdge m tl).cmds) := by
  refine ⟨buildState_length ambEdge tl.controlledLanes,
    buildState_data ambEdge tl.controlledLanes, fun hlen => ?_⟩
  simp [processTL, hz, hlen]

/-- Witness for C1 at a concrete light and road id. -/
theorem tl_override_state_string_witness :
    inZone "E1" wTL = true
    ∧ ((buildState "E1" wTL.controlledLanes).length = wTL.controlledLanes.length
      ∧ (buildState "E1" wTL.controlledLanes).data
          = wTL.controlledLanes.map (fun lane => if strContains "E1" lane then 'G' else 'r')
      ∧ ((buildState "E1" wTL.controlledLanes).length = wTL.ryg.length →
          (processTL "E1" [] wTL).light.ryg = buildState "E1" wTL.controlledLanes
          ∧ Cmd.setRYGState wTL.tlid (buildState "E1" wTL.controlledLanes)
              ∈ (processTL "E1" [] wTL).cmds)) :=
  ⟨by decide, tl_override_state_string "E1" [] wTL (by decide)⟩

/-- C2: within the in-zone branch, the override command is issued iff the
built string's length equals the current signal string's length; on a
mismatch the branch issues nothing, leaves the light untouched and the
saved-program map exactly as the save step left it, and (in the main
script) logs a warning; on a match no warning is logged. -/
theorem tl_override_length_guard (ambEdge : String) (m : ProgMap) (tl : TrafficLight)
    (hz : inZone ambEdge tl = true) :
    ((processTL ambEdge m tl).cmds ≠ []
        ↔ (buildState ambEdge tl.controlledLanes).length = tl.ryg.length)
    ∧ ((buildState ambEdge tl.controlledLanes).length = tl.ryg.length →
        (processTL ambEdge m tl).cmds
          = [Cmd.setRYGState tl.tlid (buildState ambEdge tl.controlledLanes)]
        ∧ (processTL ambEdge m tl).warnings = [])
    ∧ ((buildState ambEdge tl.controlledLanes).length ≠ tl.ryg.length →
        (processTL ambEdge m tl).light = tl
        ∧ (processTL ambEdge m tl).progs = saveOriginal m tl
        ∧ (processTL ambEdge m tl).cmds = []
        ∧ (processTL ambEdge m tl).warnings = [tl.tlid]) := by
  by_cases hlen : (buildState ambEdge tl.controlledLanes).length = tl.ryg.length
  · refine ⟨?_, fun _ => ?_, fun hne => absurd hlen hne⟩
    · simp [processTL, hz, hlen]
    · constructor <;> simp [processTL, hz, hlen]
  · refine ⟨?_, fun h => absurd h hlen, fun _ => ?_⟩
    · simp [processTL, hz, hlen]
    · refine ⟨?_, ?_, ?_, ?_⟩ <;> simp [processTL, hz, hlen]

/-- Witness for C2 at a concrete light whose signal string length does not
match its controlled-lane count. -/
theorem tl_override_length_guard_witness :
    inZone "E1" wTLbad = true
    ∧ (((processTL "E1" [] wTLbad).cmds ≠ []
        ↔ (buildState "E1" wTLbad.controlledLanes).length = wTLbad.ryg.length)
      ∧ ((buildState "E1" wTLbad.controlledLanes).length = wTLbad.ryg.length →
          (processTL "E1" [] wTLbad).cmds
            = [Cmd.setRYGState wTLbad.tlid (buildState "E1" wTLbad.controlledLanes)]
          ∧ (processTL "E1" [] wTLbad).warnings = [])
      ∧ ((buildState "E1" wTLbad.controlledLanes).length ≠ wTLbad.ryg.length →
          (processTL "E1" [] wTLbad).light = wTLbad
          ∧ (processTL "E1" [] wTLbad).progs = saveOriginal [] wTLbad
          ∧ (processTL "E1" [] wTLbad).cmds = []
          ∧ (processTL "E1" [] wTLbad).warnings = [wTLbad.tlid])) :=
  ⟨by decide, tl_override_length_guard "E1" [] wTLbad (by decide)⟩

/-- C3: the saved-program map is written only when control is first taken
(never overwritten while the entry exists), and an existing entry is
removed — with the saved program restored — exactly when the processed
ambulance is no longer in the light's zone. -/
theorem tl_program_save_restore (ambEdge : String) (m : ProgMap) (tl : TrafficLight) :
    (inZone ambEdge tl = false → ∀ prog, m.lookup tl.tlid = some prog →
        (processTL ambEdge m tl).progs = eraseKey tl.tlid m
        ∧ (processTL ambEdge m tl).progs.lookup tl.tlid = none
        ∧ (processTL ambEdge m tl).light.program = prog
        ∧ (processTL ambEdge m tl).cmds = [Cmd.setProgram tl.tlid prog])
    ∧ (inZone ambEdge tl = false → m.lookup tl.tlid = none →
        (processTL ambEdge m tl).progs = m
        ∧ (processTL ambEdge m tl).light = tl
        ∧ (processTL ambEdge m tl).cmds = [])
    ∧ (inZone ambEdge tl = true → m.lookup tl.tlid = none →
        (processTL ambEdge m tl).progs = (tl.tlid, tl.program) :: m)
    ∧ (inZone ambEdge tl = true → (m.lookup tl.tlid).isSome = true →
        (processTL ambEdge m tl).progs = m)
    ∧ ((m.lookup tl.tlid).isSome = true →
        ((processTL ambEdge m tl).progs.lookup tl.tlid = none
          ↔ inZone ambEdge tl = false)) := by
  refine ⟨fun hz prog hp => ?_, fun hz hp => ?_, fun hz hp => ?_, fun hz hp => ?_,
    fun hp => ?_⟩
  · refine ⟨?_, ?_, ?_, ?_⟩ <;>
      simp [processTL, hz, hp, lookup_eraseKey_self]
  · refine ⟨?_, ?_, ?_⟩ <;> simp [processTL, hz, hp]
  · simp only [processTL, saveOriginal, hz, hp, if_true, Option.isSome_none,
      Bool.false_eq_true, if_false]
    split <;> rfl
  · simp only [processTL, saveOriginal, hz, hp, if_true]
    split <;> rfl
  · rcases ho : m.lookup tl.tlid with _ | prog
    · simp [ho] at hp
    · by_cases hz : inZone ambEdge tl
      · have : (processTL ambEdge m tl).progs = m := by
          simp only [processTL, saveOriginal, hz, ho, Option.isSome_some, if_true]
          split <;> rfl
        simp [this, ho, hz]
      · have hzf : inZone ambEdge tl = false := by simpa using hz
        have : (processTL ambEdge m tl).progs = eraseKey tl.tlid m := by
          simp [processTL, hzf, ho]
        simp [this, lookup_eraseKey_self, hzf]

theorem alertCond_exAmb_exV1 : alertCond exAmb exV1 := by
  rw [alertCond_iff_distSq]
  refine ⟨by decide, by decide, rfl, rfl, ?_, ?_, ?_⟩ <;>
    norm_num [distSq, exAmb, exV1]

theorem alertCond_exAmb_exV2 : alertCond exAmb exV2 := by
  rw [alertCond_iff_distSq]
  refine ⟨by decide, by decide, rfl, rfl, ?_, ?_, ?_⟩ <;>
    norm_num [distSq, exAmb, exV2]

/-- C4 counterexample: with two vehicles meeting the alert condition, the
main script's scan (`ambulance_comm.py` lines 63-75) breaks after the first
one, so `car_2` meets the condition but is never flagged — the claim's
"every other non-emergency vehicle" fails on the main script. -/
theorem alert_scan_break_counterexample :
    alertCond exAmb exV2 ∧ exV2 ∈ [exV1, exV2]
    ∧ mainFlagged exAmb [exV1, exV2] = [exV1]
    ∧ exV2 ∉ mainFlagged exAmb [exV1, exV2] := by
  have hm : mainFlagged exAmb [exV1, exV2] = [exV1] := by
    simp [mainFlagged, scanFirstAlert, alertCond_exAmb_exV1]
  refine ⟨alertCond_exAmb_exV2, by simp, hm, ?_⟩
  rw [hm]
  intro h
  rw [List.mem_singleton] at h
  exact absurd (congrArg Vehicle.vid h) (by decide)

/-- C4 (amended): the dashboard worker's scan flags every vehicle meeting
the alert condition, while the main script's scan stops at the first such
vehicle; in either script the per-ambulance step sends simulator commands
only to the ambulance itself (and to traffic lights), never to a flagged
vehicle. -/
theorem alert_scan_flags (amb : Vehicle) (vehicles : List Vehicle)
    (lights : List TrafficLight) (m : ProgMap) (numLanes : Int)
    (tryOut : Int → TryOutcome) :
    (∀ v, v ∈ dashFlagged amb vehicles ↔ v ∈ vehicles ∧ alertCond amb v)
    ∧ scanFirstAlert amb vehicles = (vehicles.find? fun v => decide (alertCond amb v))
    ∧ (congestionDetected amb vehicles = true ↔ ∃ v ∈ vehicles, alertCond amb v)
    ∧ (∀ c ∈ (perAmbulanceStep amb vehicles lights m numLanes tryOut).cmds,
        ∀ vid, c.vehTarget = some vid → vid = amb.vid) := by
  refine ⟨fun v => ?_, scanFirstAlert_eq_find amb vehicles, ?_, ?_⟩
  · simp [dashFlagged, List.mem_filter]
  · simp [congestionDetected, scanFirstAlert_eq_find, List.find?_isSome]
  · intro c hc vid hvid
    rcases hlc : laneChangePhase amb vehicles numLanes tryOut with _ | r <;>
      simp only [perAmbulanceStep, hlc, List.mem_append, List.mem_cons,
        List.not_mem_nil, or_false, List.mem_map] at hc
    · rcases hc with (hc | hc) | hc
      · subst hc; symm; simpa [Cmd.vehTarget] using hvid
      · subst hc; symm; simpa [Cmd.vehTarget] using hvid
      · have h0 := tlPhase_cmds_vehTarget amb.edge lights m c hc
        rw [h0] at hvid; cases hvid
    · rcases hc with ((hc | hc) | hc) | ⟨n, hn, hcn⟩
      · subst hc; symm; simpa [Cmd.vehTarget] using hvid
      · subst hc; symm; simpa [Cmd.vehTarget] using hvid
      · have h0 := tlPhase_cmds_vehTarget amb.edge lights m c hc
        rw [h0] at hvid; cases hvid
      · subst hcn; symm; simpa [Cmd.vehTarget] using hvid

/-- Witness for C4 (amended): both cars ahead are flagged by the dashboard
scan and the scan reports congestion. -/
theorem alert_scan_flags_witness :
    exV2 ∈ dashFlagged exAmb [exV1, exV2]
    ∧ exV1 ∈ dashFlagged exAmb [exV1, exV2]
    ∧ congestionDetected exAmb [exV1, exV2] = true := by
  have h := alert_scan_flags exAmb [exV1, exV2] [] [] 2 fun _ => TryOutcome.err
  exact ⟨(h.1 exV2).mpr ⟨by simp, alertCond_exAmb_exV2⟩,
    (h.1 exV1).mpr ⟨by simp, alertCond_exAmb_exV1⟩,
    h.2.2.1.mpr ⟨exV1, by simp, alertCond_exAmb_exV1⟩⟩

/-- C5: the lane-change attempt block runs iff the scan detected a vehicle;
the candidate list is lane+1 (only if below the lane count) then lane-1
(only if at least zero); candidates are attempted in order up to and
including the first one whose attempt changed the lane id, a caught
exception counting as a failed attempt. -/
theorem lane_change_policy (amb : Vehicle) (vehicles : List Vehicle)
    (numLanes : Int) (tryOut : Int → TryOutcome) :
    ((laneChangePhase amb vehicles numLanes tryOut).isSome = true
        ↔ congestionDetected amb vehicles = true)
    ∧ (∀ n : Int, n ∈ laneOptions amb.laneIndex numLanes ↔
        ((n = amb.laneIndex + 1 ∧ amb.laneIndex + 1 < numLanes)
          ∨ (n = amb.laneIndex - 1 ∧ 0 ≤ amb.laneIndex - 1)))
    ∧ (congestionDetected amb vehicles = true →
        laneChangePhase amb vehicles numLanes tryOut
          = some ((laneOptions amb.laneIndex numLanes).any
                    (fun n => trySucceeds amb.laneId (tryOut n)),
                  (laneOptions amb.laneIndex numLanes).take
                    (((laneOptions amb.laneIndex numLanes).findIdx
                        fun n => trySucceeds amb.laneId (tryOut n)) + 1))) := by
  refine ⟨?_, fun n => ?_, fun hcong => ?_⟩
  · by_cases h : congestionDetected amb vehicles <;> simp [laneChangePhase, h]
  · by_cases h1 : amb.laneIndex + 1 < numLanes <;>
      by_cases h2 : (0:Int) ≤ amb.laneIndex - 1 <;>
      simp [laneOptions, h1, h2]
  · simp [laneChangePhase, hcong, attemptLanes_eq_take_findIdx]

/-- Witness for C5: with congestion ahead on a 2-lane edge and every
`changeLane` call failing, exactly the single candidate lane 1 is tried. -/
theorem lane_change_policy_witness :
    congestionDetected exAmb [exV1] = true
    ∧ laneChangePhase exAmb [exV1] 2 (fun _ => TryOutcome.err)
        = some (false, [1]) := by
  have hcong : congestionDetected exAmb [exV1] = true := by
    simp [congestionDetected, scanFirstAlert, alertCond_exAmb_exV1]
  have h := (lane_change_policy exAmb [exV1] 2 fun _ => TryOutcome.err).2.2 hcong
  exact ⟨hcong, by rw [h]; decide⟩

/-- C6: a vehicle receives the priority treatment (red colour and speed
mode 0) in a step iff some listed vehicle with its id has `"ambulance"` in
the lowercased id or vehicle class `"emergency"`; and every command issued
by the marking phase targets such a vehicle. -/
theorem priority_treatment (vehicles : List Vehicle) (v : Vehicle) :
    ((Cmd.setColor v.vid (255, 0, 0, 255) ∈ markCmds vehicles
        ∧ Cmd.setSpeedMode v.vid 0 ∈ markCmds vehicles)
      ↔ ∃ u ∈ vehicles, u.vid = v.vid
          ∧ (strContains "ambulance" (strLower u.vid) = true ∨ u.vclass = "emergency"))
    ∧ (∀ vid : String, (∃ c ∈ markCmds vehicles, c.vehTarget = some vid) →
        ∃ u ∈ vehicles, u.vid = vid ∧ isAmbulance u = true) := by
  have hpred : ∀ u : Vehicle, isAmbulance u = true ↔
      (strContains "ambulance" (strLower u.vid) = true ∨ u.vclass = "emergency") := by
    intro u
    simp [isAmbulance, Bool.or_eq_true]
  constructor
  · constructor
    · rintro ⟨h1, _⟩
      simp only [markCmds, List.mem_flatMap, ambulances, List.mem_filter] at h1
      obtain ⟨u, ⟨hu, hamb⟩, hc⟩ := h1
      simp only [List.mem_cons, List.not_mem_nil, or_false] at hc
      rcases hc with hc | hc
      · injection hc with hvid _
        exact ⟨u, hu, hvid.symm, (hpred u).mp hamb⟩
      · cases hc
    · rintro ⟨u, hu, hvid, hp⟩
      have hamb : isAmbulance u = true := (hpred u).mpr hp
      constructor <;>
      · simp only [markCmds, List.mem_flatMap, ambulances, List.mem_filter]
        exact ⟨u, ⟨hu, hamb⟩, by simp [hvid]⟩
  · rintro vid ⟨c, hc, htarget⟩
    simp only [markCmds, List.mem_flatMap, ambulances, List.mem_filter] at hc
    obtain ⟨u, ⟨hu, hamb⟩, hc⟩ := hc
    simp only [List.mem_cons, List.not_mem_nil, or_false] at hc
    rcases hc with hc | hc <;> subst hc <;>
      simp only [Cmd.vehTarget, Option.some.injEq] at htarget <;>
      exact ⟨u, hu, htarget, hamb⟩

/-- Witness for C6: the concrete ambulance is marked, and the marking phase
on a mixed list targets only ambulance-predicate vehicles. -/
theorem priority_treatment_witness :
    Cmd.setColor exAmb.vid (255, 0, 0, 255) ∈ markCmds [exAmb, exV1]
    ∧ Cmd.setSpeedMode exAmb.vid 0 ∈ markCmds [exAmb, exV1] :=
  (priority_treatment [exAmb, exV1] exAmb).1.mpr
    ⟨exAmb, List.mem_cons_self _ _, rfl, Or.inr rfl⟩

theorem runLoop_reaches (report : Nat → Int) (N : Nat) (hN : report N ≤ 0)
    (hlt : ∀ k, k < N → 0 < report k) :
    ∀ fuel k, k ≤ N → N - k < fuel → runLoop report fuel k = some N := by
  intro fuel
  induction fuel with
  | zero => intro k hk hf; omega
  | succ f ih =>
    intro k hk hf
    by_cases hkN : k = N
    · subst hkN
      have hnot : ¬(report k > 0) := by omega
      simp [runLoop, hnot]
    · have hkN' : k < N := lt_of_le_of_ne hk hkN
      have hpos : report k > 0 := hlt k hkN'
      simp only [runLoop, if_pos hpos]
      exact ih (k + 1) (by omega) (by omega)

/-- C7: the stepping loop keeps iterating while the simulator's report is
positive and exits at the first non-positive report; if some report is
non-positive the loop terminates, having advanced the simulation exactly
one step per iteration (`N` steps in total). -/
theorem loop_runs_until_nonpositive (report : Nat → Int) (h : ∃ n, report n ≤ 0) :
    ∃ N, runLoop report (N + 1) 0 = some N
      ∧ (∀ k, k < N → 0 < report k) ∧ report N ≤ 0 := by
  have hN : report (Nat.find h) ≤ 0 := Nat.find_spec h
  have hlt : ∀ k, k < Nat.find h → 0 < report k := by
    intro k hk
    have := Nat.find_min h hk
    omega
  exact ⟨Nat.find h,
    runLoop_reaches report (Nat.find h) hN hlt (Nat.find h + 1) 0 (Nat.zero_le _) (by omega),
    hlt, hN⟩

/-- Witness for C7 with the report sequence 2, 1, 0, ... . -/
theorem loop_runs_until_nonpositive_witness :
    (∃ n : Nat, (2:Int) - n ≤ 0)
    ∧ ∃ N, runLoop (fun n => (2:Int) - n) (N + 1) 0 = some N
        ∧ (∀ k, k < N → 0 < (2:Int) - k) ∧ (2:Int) - N ≤ 0 :=
  ⟨⟨2, by norm_num⟩, loop_runs_until_nonpositive (fun n => (2:Int) - n) ⟨2, by norm_num⟩⟩

/-- Witness for C3: an out-of-zone light with a saved entry is restored and
its entry deleted. -/
theorem tl_program_save_restore_witness :
    inZone "E9" wTL = false
    ∧ (([("J1", "0")] : ProgMap).lookup wTL.tlid = some "0")
    ∧ (processTL "E9" [("J1", "0")] wTL).progs = eraseKey wTL.tlid [("J1", "0")]
    ∧ (processTL "E9" [("J1", "0")] wTL).progs.lookup wTL.tlid = none
    ∧ (processTL "E9" [("J1", "0")] wTL).light.program = "0"
    ∧ (processTL "E9" [("J1", "0")] wTL).cmds = [Cmd.setProgram wTL.tlid "0"] := by
  have h := (tl_program_save_restore "E9" [("J1", "0")] wTL).1 (by decide) "0" (by decide)
  exact ⟨by decide, by decide, h.1, h.2.1, h.2.2.1, h.2.2.2⟩

end AmbulanceSim
